import Mathlib

/-!
Verification of the `solar_angle` routine of `ecoflux.radtrans.solar_radiation`
(NOAA solar position / sunrise-sunset algorithm), via a shallow embedding of
the source into Lean over the real numbers.

Conventions of the embedding:
* numpy floating-point scalars are modelled as exact real numbers (`ℝ`);
* `np.mod(x, m)` (for `m > 0`) is `rmod x m = x - m * ⌊x / m⌋`;
* NaN-producing operations (`np.arccos` outside `[-1, 1]`, division by zero
  feeding an `arccos`) are modelled separately with `Option ℝ` (`none` = NaN),
  in the definitions suffixed `E`; IEEE comparisons with NaN are `False`;
* `datetime.datetime` inputs are modelled by the fields the source reads:
  the `timedelta` from the 1968-05-24 reference epoch (`.days`, `.seconds`)
  and the time-of-day components (`hour`, `minute`, `second`, `microsecond`).
-/

open Real

/-- The fields of a `datetime.datetime` argument that `solar_angle` reads:
`tdDays`/`tdSeconds` are `(dt - datetime(1968, 5, 24)).days/.seconds`, and
`hour`, `minute`, `second`, `microsecond` are the time-of-day components. -/
structure DTime where
  tdDays : ℤ
  tdSeconds : ℤ
  hour : ℤ
  minute : ℤ
  second : ℤ
  microsecond : ℤ

/-- The full argument tuple of `solar_angle(dt, lat, lon, timezone)`. -/
structure SInput where
  time : DTime
  lat : ℝ
  lon : ℝ
  timezone : ℝ

/-- Model of `np.radians`: degrees to radians. -/
noncomputable def radians (x : ℝ) : ℝ := x * π / 180

/-- Model of `np.degrees`: radians to degrees. -/
noncomputable def degrees (x : ℝ) : ℝ := x * 180 / π

/-- Model of `np.mod x m` for real arguments (result in `[0, m)` when `0 < m`). -/
noncomputable def rmod (x m : ℝ) : ℝ := x - m * ⌊x / m⌋

/-- Model of `constants.eccentricity`: present-day orbital eccentricity of Earth. -/
noncomputable def eccentricity : ℝ := 0.016704232

/-- Model of `julian_date`: NASA truncated Julian Date,
`2440000.5 + time_delta.days + time_delta.seconds / 86400.0 - timezone / 24.0`. -/
noncomputable def julianDate (i : SInput) : ℝ :=
  2440000.5 + (i.time.tdDays : ℝ) + (i.time.tdSeconds : ℝ) / 86400.0
    - i.timezone / 24.0

/-- Model of `julian_century = (julian_date - 2451545.0) / 36525.0`. -/
noncomputable def julianCentury (i : SInput) : ℝ :=
  (julianDate i - 2451545.0) / 36525.0

/-- Model of `geom_mean_lon_sun`: geometric mean longitude of the sun, in degree. -/
noncomputable def geomMeanLonSun (i : SInput) : ℝ :=
  rmod (280.46646
    + julianCentury i * (36000.76983 + julianCentury i * 0.0003032)) 360

/-- Model of `geom_mean_anom_sun`: geometric mean anomaly of the sun, in degree. -/
noncomputable def geomMeanAnomSun (i : SInput) : ℝ :=
  357.52911 + julianCentury i * (35999.05029 - 0.0001537 * julianCentury i)

/-- Model of `sun_eq_ctr`: solar equation of center. -/
noncomputable def sunEqCtr (i : SInput) : ℝ :=
  sin (radians (geomMeanAnomSun i))
      * (1.914602 - julianCentury i * (0.004817 + 0.000014 * julianCentury i))
    + sin (radians (geomMeanAnomSun i) * 2)
      * (0.019993 - 0.000101 * julianCentury i)
    + sin (radians (geomMeanAnomSun i) * 3) * 0.000289

/-- Model of `sun_true_lon`: solar true longitude. -/
noncomputable def sunTrueLon (i : SInput) : ℝ := geomMeanLonSun i + sunEqCtr i

/-- Model of `sun_app_lon`: solar apparent longitude. -/
noncomputable def sunAppLon (i : SInput) : ℝ :=
  sunTrueLon i - 0.00569
    - 0.00478 * sin (radians (125.04 - 1934.136 * julianCentury i))

/-- Model of `mean_obliq_ecliptic`: mean obliquity of the ecliptic, in degree. -/
noncomputable def meanObliqEcliptic (i : SInput) : ℝ :=
  23.0 + (26.0 + (21.448 - julianCentury i
    * (46.815 + julianCentury i * (0.00059 - julianCentury i * 0.001813)))
    / 60.0) / 60.0

/-- Model of `obliq_corr`: obliquity corrected for nutation, in degree. -/
noncomputable def obliqCorr (i : SInput) : ℝ :=
  meanObliqEcliptic i
    + 0.00256 * cos (radians (125.04 - 1934.136 * julianCentury i))

/-- Model of `sun_declin`: solar declination, in degree. -/
noncomputable def sunDeclin (i : SInput) : ℝ :=
  degrees (arcsin (sin (radians (obliqCorr i)) * sin (radians (sunAppLon i))))

/-- Model of `var_y = tan(radians(obliq_corr / 2))**2`. -/
noncomputable def varY (i : SInput) : ℝ := tan (radians (obliqCorr i / 2.0)) ^ 2

/-- Model of `eq_time`: the equation of time, in minutes (5-term NOAA approximation). -/
noncomputable def eqTime (i : SInput) : ℝ :=
  4.0 * degrees (varY i * sin (2.0 * radians (geomMeanLonSun i))
    - 2.0 * eccentricity * sin (radians (geomMeanAnomSun i))
    + 4.0 * eccentricity * varY i * sin (radians (geomMeanAnomSun i))
      * cos (2.0 * radians (geomMeanLonSun i))
    - 0.5 * varY i ^ 2 * sin (4.0 * radians (geomMeanLonSun i))
    - 1.25 * eccentricity ^ 2 * sin (2.0 * radians (geomMeanAnomSun i)))

/-- The argument of the `arccos` in the `HA_sunrise` computation. -/
noncomputable def HASunriseArg (i : SInput) : ℝ :=
  cos (radians 90.833) / (cos (radians i.lat) * cos (radians (sunDeclin i)))
    - tan (radians i.lat) * tan (radians (sunDeclin i))

/-- Model of `HA_sunrise`: the sunrise hour angle, in degree. -/
noncomputable def HASunrise (i : SInput) : ℝ := degrees (arccos (HASunriseArg i))

/-- Model of `solar_noon_local`, in fraction of a day. -/
noncomputable def solarNoonLocal (i : SInput) : ℝ :=
  (720.0 - 4.0 * i.lon - eqTime i + i.timezone * 60.0) / 1440.0

/-- Model of `sunrise_local`, in fraction of a day. -/
noncomputable def sunriseLocal (i : SInput) : ℝ :=
  solarNoonLocal i - HASunrise i * 4.0 / 1440.0

/-- Model of `sunset_local`, in fraction of a day. -/
noncomputable def sunsetLocal (i : SInput) : ℝ :=
  solarNoonLocal i + HASunrise i * 4.0 / 1440.0

/-- Model of `fractional_day`: fraction of the day elapsed at the observation time. -/
noncomputable def fractionalDay (i : SInput) : ℝ :=
  (i.time.hour : ℝ) / 24.0 + (i.time.minute : ℝ) / 1440.0
    + ((i.time.second : ℝ) + (i.time.microsecond : ℝ) * 0.000001) / 86400.0

/-- Model of `true_solar_time_min`: true solar time in minutes, wrapped mod 1440. -/
noncomputable def trueSolarTimeMin (i : SInput) : ℝ :=
  rmod (fractionalDay i * 1440.0 + eqTime i + 4.0 * i.lon
    - 60.0 * i.timezone) 1440

/-- Model of `hour_angle`, in degree: the sign-based branch of the source. -/
noncomputable def hourAngle (i : SInput) : ℝ :=
  if trueSolarTimeMin i / 4.0 < 0.0 then trueSolarTimeMin i / 4.0 + 180.0
  else trueSolarTimeMin i / 4.0 - 180.0

/-- The argument of the `arccos` in the `solar_zenith_angle` computation. -/
noncomputable def zenithArg (i : SInput) : ℝ :=
  sin (radians i.lat) * sin (radians (sunDeclin i))
    + cos (radians i.lat) * cos (radians (sunDeclin i))
      * cos (radians (hourAngle i))

/-- Model of `solar_zenith_angle`, in degree. -/
noncomputable def solarZenithAngle (i : SInput) : ℝ :=
  degrees (arccos (zenithArg i))

/-- Model of `solar_elev_angle = 90.0 - solar_zenith_angle`, in degree. -/
noncomputable def solarElevAngle (i : SInput) : ℝ := 90.0 - solarZenithAngle i

/-- The ratio inside the `arccos` of the azimuth computation. -/
noncomputable def azimuthRatio (i : SInput) : ℝ :=
  (sin (radians i.lat) * cos (radians (solarZenithAngle i))
    - sin (radians (sunDeclin i)))
  / (cos (radians i.lat) * sin (radians (solarZenithAngle i)))

/-- Model of `solar_azimuth_angle`, in degree: the two-branch computation of the
source, keyed on the sign of the hour angle. -/
noncomputable def solarAzimuthAngle (i : SInput) : ℝ :=
  if hourAngle i > 0.0 then
    rmod (degrees (arccos (azimuthRatio i)) + 180) 360
  else
    rmod (540.0 - degrees (arccos (azimuthRatio i))) 360

/-- Model of `approx_atmos_refrac`: the 4-branch piecewise empirical atmospheric
refraction correction, in degree, keyed on the uncorrected elevation angle.
The source has no `else` branch; over exact real arithmetic the fourth guard
`e ≤ -0.575` is exactly the complement of the first three (theorem `c1`),
so the final `else` written here is unreachable. (In the floating-point
source an input satisfying no guard leaves the variable unbound; that case
is modelled faithfully by `refracE` below.) -/
noncomputable def approxAtmosRefrac (e : ℝ) : ℝ :=
  if 85.0 < e then 0.0
  else if 5.0 < e ∧ e ≤ 85.0 then
    (58.1 / tan (radians e) - 0.07 / tan (radians e) ^ 3
      + 0.000086 / tan (radians e) ^ 5) / 3600.0
  else if -0.575 < e ∧ e ≤ 5.0 then
    (1735.0 - 518.2 * e + 103.4 * e ^ 2 - 12.79 * e ^ 3
      + 0.711 * e ^ 4) / 3600.0
  else if e ≤ -0.575 then
    -20.774 / 3600.0 / tan (radians e)
  else 0.0

/-- The ten-field `SolarAngleResult` namedtuple, over exact reals. -/
structure SolarAngleResult where
  solar_noon : ℝ
  sunrise : ℝ
  sunset : ℝ
  hour_angle : ℝ
  solar_zenith_angle : ℝ
  solar_elevation_angle : ℝ
  solar_azimuth_angle : ℝ
  atmospheric_refraction : ℝ
  solar_zenith_angle_corrected : ℝ
  solar_elevation_angle_corrected : ℝ

/-- Model of `solar_angle`, over exact reals: assembles the result record. -/
noncomputable def solarAngle (i : SInput) : SolarAngleResult where
  solar_noon := solarNoonLocal i
  sunrise := sunriseLocal i
  sunset := sunsetLocal i
  hour_angle := hourAngle i
  solar_zenith_angle := solarZenithAngle i
  solar_elevation_angle := solarElevAngle i
  solar_azimuth_angle := solarAzimuthAngle i
  atmospheric_refraction := approxAtmosRefrac (solarElevAngle i)
  solar_zenith_angle_corrected :=
    solarZenithAngle i - approxAtmosRefrac (solarElevAngle i)
  solar_elevation_angle_corrected :=
    solarElevAngle i + approxAtmosRefrac (solarElevAngle i)

/- Basic facts about `rmod`, the trig arguments, and `degrees`. -/

theorem rmod_nonneg (x : ℝ) {m : ℝ} (hm : 0 < m) : 0 ≤ rmod x m := by
  have h : rmod x m = m * Int.fract (x / m) := by
    unfold rmod Int.fract
    field_simp
  rw [h]
  exact mul_nonneg hm.le (Int.fract_nonneg _)

theorem rmod_lt (x : ℝ) {m : ℝ} (hm : 0 < m) : rmod x m < m := by
  have h : rmod x m = m * Int.fract (x / m) := by
    unfold rmod Int.fract
    field_simp
  rw [h]
  calc m * Int.fract (x / m) < m * 1 :=
        (mul_lt_mul_left hm).mpr (Int.fract_lt_one _)
    _ = m := mul_one m

/-- The zenith `arccos` argument is always in `[-1, 1]` in exact
arithmetic (spherical-law-of-cosines bound). -/
theorem zenithArg_mem (i : SInput) : -1 ≤ zenithArg i ∧ zenithArg i ≤ 1 := by
  unfold zenithArg
  set a := radians i.lat
  set b := radians (sunDeclin i)
  set c := radians (hourAngle i)
  have hsub1 : cos (a - b) ≤ 1 := cos_le_one _
  have hsub2 : -1 ≤ cos (a - b) := neg_one_le_cos _
  have hadd1 : cos (a + b) ≤ 1 := cos_le_one _
  have hadd2 : -1 ≤ cos (a + b) := neg_one_le_cos _
  have hc1 : cos c ≤ 1 := cos_le_one _
  have hc2 : -1 ≤ cos c := neg_one_le_cos _
  rw [Real.cos_sub] at hsub1 hsub2
  rw [Real.cos_add] at hadd1 hadd2
  constructor
  · nlinarith [mul_nonneg (by linarith : (0:ℝ) ≤ 1 + cos c)
        (by nlinarith : (0:ℝ) ≤ 1 + cos a * cos b + sin a * sin b),
      mul_nonneg (by linarith : (0:ℝ) ≤ 1 - cos c)
        (by nlinarith : (0:ℝ) ≤ 1 + sin a * sin b - cos a * cos b)]
  · nlinarith [mul_nonneg (by linarith : (0:ℝ) ≤ 1 + cos c)
        (by nlinarith : (0:ℝ) ≤ 1 - cos a * cos b - sin a * sin b),
      mul_nonneg (by linarith : (0:ℝ) ≤ 1 - cos c)
        (by nlinarith : (0:ℝ) ≤ 1 + cos a * cos b - sin a * sin b)]

theorem degrees_nonneg {x : ℝ} (hx : 0 ≤ x) : 0 ≤ degrees x := by
  unfold degrees
  positivity

theorem degrees_le_of_le_pi {x : ℝ} (hx : x ≤ π) : degrees x ≤ 180 := by
  unfold degrees
  rw [div_le_iff₀ pi_pos]
  nlinarith [pi_pos]

theorem degrees_pos {x : ℝ} (hx : 0 < x) : 0 < degrees x := by
  unfold degrees
  positivity

/-- Converting degrees back to radians recovers the argument. -/
theorem radians_degrees (x : ℝ) : radians (degrees x) = x := by
  unfold radians degrees
  field_simp

/- Claim theorems on the exact-real model. -/

/-- C1: for every (finite real) uncorrected elevation angle `e`, the
atmospheric refraction is computed by exactly one of four branches keyed on
`e` — `0` when `e > 85`; the tangent series when `5 < e ≤ 85`; the quartic
polynomial when `-0.575 < e ≤ 5`; and `-20.774/3600/tan e` when
`e ≤ -0.575` — and the four guards are mutually exclusive and exhaustive:
no `e` falls outside all four, and none satisfies two of them. -/
theorem refraction_four_branches (e : ℝ) :
    ((85.0 < e → approxAtmosRefrac e = 0.0) ∧
     (5.0 < e ∧ e ≤ 85.0 → approxAtmosRefrac e =
        (58.1 / tan (radians e) - 0.07 / tan (radians e) ^ 3
          + 0.000086 / tan (radians e) ^ 5) / 3600.0) ∧
     (-0.575 < e ∧ e ≤ 5.0 → approxAtmosRefrac e =
        (1735.0 - 518.2 * e + 103.4 * e ^ 2 - 12.79 * e ^ 3
          + 0.711 * e ^ 4) / 3600.0) ∧
     (e ≤ -0.575 → approxAtmosRefrac e =
        -20.774 / 3600.0 / tan (radians e))) ∧
    ((85.0 < e) ∨ (5.0 < e ∧ e ≤ 85.0) ∨ (-0.575 < e ∧ e ≤ 5.0) ∨
      (e ≤ -0.575)) ∧
    (¬((85.0 < e) ∧ (5.0 < e ∧ e ≤ 85.0)) ∧
     ¬((85.0 < e) ∧ (-0.575 < e ∧ e ≤ 5.0)) ∧
     ¬((85.0 < e) ∧ (e ≤ -0.575)) ∧
     ¬((5.0 < e ∧ e ≤ 85.0) ∧ (-0.575 < e ∧ e ≤ 5.0)) ∧
     ¬((5.0 < e ∧ e ≤ 85.0) ∧ (e ≤ -0.575)) ∧
     ¬((-0.575 < e ∧ e ≤ 5.0) ∧ (e ≤ -0.575))) := by
  refine ⟨⟨?_, ?_, ?_, ?_⟩, ?_, ?_⟩
  · intro h1
    unfold approxAtmosRefrac
    rw [if_pos h1]
  · rintro ⟨h2a, h2b⟩
    unfold approxAtmosRefrac
    rw [if_neg (by linarith), if_pos ⟨h2a, h2b⟩]
  · rintro ⟨h3a, h3b⟩
    unfold approxAtmosRefrac
    rw [if_neg (by linarith), if_neg (by rintro ⟨hx, _⟩; linarith),
      if_pos ⟨h3a, h3b⟩]
  · intro h4
    unfold approxAtmosRefrac
    rw [if_neg (by linarith), if_neg (by rintro ⟨hx, _⟩; linarith),
      if_neg (by rintro ⟨hx, _⟩; linarith), if_pos h4]
  · rcases lt_or_le 85.0 e with h | h
    · exact Or.inl h
    · rcases lt_or_le 5.0 e with h2 | h2
      · exact Or.inr (Or.inl ⟨h2, h⟩)
      · rcases lt_or_le (-0.575) e with h3 | h3
        · exact Or.inr (Or.inr (Or.inl ⟨h3, h2⟩))
        · exact Or.inr (Or.inr (Or.inr h3))
  · refine ⟨?_, ?_, ?_, ?_, ?_, ?_⟩
    · rintro ⟨hA, hB1, hB2⟩; linarith
    · rintro ⟨hA, hB1, hB2⟩; linarith
    · rintro ⟨hA, hB⟩; linarith
    · rintro ⟨⟨hA1, hA2⟩, hB1, hB2⟩; linarith
    · rintro ⟨⟨hA1, hA2⟩, hB⟩; linarith
    · rintro ⟨⟨hA1, hA2⟩, hB⟩; linarith

/-- C1 witness: at `e = 10` the second guard holds and the refraction is
given by the tangent-series formula. -/
theorem refraction_four_branches_witness :
    approxAtmosRefrac 10 =
      (58.1 / tan (radians 10) - 0.07 / tan (radians 10) ^ 3
        + 0.000086 / tan (radians 10) ^ 5) / 3600.0 :=
  (refraction_four_branches 10).1.2.1 (by norm_num)

/-- C3: the true solar time in minutes is
`(fractionalDay * 1440 + eqTime + 4 * lon - 60 * timezone)` wrapped modulo
1440 into `[0, 1440)`, and the hour angle is computed from it by the
sign-based branch (`tst/4 - 180` when `tst/4 ≥ 0`, else `tst/4 + 180`),
not by a modulo reduction of the hour angle itself. -/
theorem true_solar_time_and_hour_angle_branch (i : SInput) :
    trueSolarTimeMin i =
      rmod (fractionalDay i * 1440.0 + eqTime i + 4.0 * i.lon
        - 60.0 * i.timezone) 1440 ∧
    0 ≤ trueSolarTimeMin i ∧ trueSolarTimeMin i < 1440 ∧
    (solarAngle i).hour_angle =
      (if trueSolarTimeMin i / 4.0 < 0.0 then trueSolarTimeMin i / 4.0 + 180.0
       else trueSolarTimeMin i / 4.0 - 180.0) := by
  refine ⟨rfl, ?_, ?_, rfl⟩
  · exact rmod_nonneg _ (by norm_num)
  · exact rmod_lt _ (by norm_num)

/-- C9: the wrapped true solar time lies in `[0, 1440)`, so `tst/4` is never
negative: the branch adding 180 is unreachable, the hour angle always equals
`tst/4 - 180`, and it lies in `[-180, 180)` — the value `+180` is never
returned. -/
theorem hour_angle_plus_branch_unreachable (i : SInput) :
    ¬(trueSolarTimeMin i / 4.0 < 0.0) ∧
    (solarAngle i).hour_angle = trueSolarTimeMin i / 4.0 - 180.0 ∧
    -180 ≤ (solarAngle i).hour_angle ∧ (solarAngle i).hour_angle < 180 := by
  have h0 : 0 ≤ trueSolarTimeMin i := rmod_nonneg _ (by norm_num)
  have h1 : trueSolarTimeMin i < 1440 := rmod_lt _ (by norm_num)
  have hnn : ¬(trueSolarTimeMin i / 4.0 < 0.0) := by
    rw [not_lt]
    linarith
  have heq : (solarAngle i).hour_angle = trueSolarTimeMin i / 4.0 - 180.0 := by
    show hourAngle i = _
    unfold hourAngle
    rw [if_neg hnn]
  refine ⟨hnn, heq, ?_, ?_⟩ <;> rw [heq] <;> [linarith; linarith]

/-- C4: the sunrise hour angle is
`degrees (arccos (cos 90.833° / (cos lat · cos declin) − tan lat · tan declin))`,
and the day-fraction fields satisfy
`solar_noon = (720 − 4·lon − eqTime + timezone·60)/1440`,
`sunrise = solar_noon − HA·4/1440`, `sunset = solar_noon + HA·4/1440`.
(The exact-real model proves the equations unconditionally; the claim's
`arccos`-domain hypothesis only matters for floating-point NaN, handled by
the `E` model below.) -/
theorem sunrise_sunset_noon_equations (i : SInput) :
    HASunrise i = degrees (arccos (cos (radians 90.833)
      / (cos (radians i.lat) * cos (radians (sunDeclin i)))
      - tan (radians i.lat) * tan (radians (sunDeclin i)))) ∧
    (solarAngle i).solar_noon =
      (720.0 - 4.0 * i.lon - eqTime i + i.timezone * 60.0) / 1440.0 ∧
    (solarAngle i).sunrise =
      (solarAngle i).solar_noon - HASunrise i * 4.0 / 1440.0 ∧
    (solarAngle i).sunset =
      (solarAngle i).solar_noon + HASunrise i * 4.0 / 1440.0 :=
  ⟨rfl, rfl, rfl, rfl⟩

/-- C6: the refraction-corrected zenith and elevation angles always sum to
exactly 90 degrees, since the correction is subtracted from the zenith angle
and added to the complementary elevation angle. -/
theorem corrected_angles_sum_to_ninety (i : SInput) :
    (solarAngle i).solar_zenith_angle_corrected
      + (solarAngle i).solar_elevation_angle_corrected = 90 := by
  show solarZenithAngle i - approxAtmosRefrac (solarElevAngle i)
      + (solarElevAngle i + approxAtmosRefrac (solarElevAngle i)) = 90
  unfold solarElevAngle
  ring

/-- C10: two calls with the same timestamp, longitude and timezone but
different latitudes return the same `solar_noon` and `hour_angle`: neither
output depends on the latitude input. -/
theorem noon_hour_angle_independent_of_latitude
    (t : DTime) (lat1 lat2 lon tz : ℝ) (_hne : lat1 ≠ lat2) :
    (solarAngle ⟨t, lat1, lon, tz⟩).solar_noon =
      (solarAngle ⟨t, lat2, lon, tz⟩).solar_noon ∧
    (solarAngle ⟨t, lat1, lon, tz⟩).hour_angle =
      (solarAngle ⟨t, lat2, lon, tz⟩).hour_angle :=
  ⟨rfl, rfl⟩

/-- C10 witness: concrete instance at latitudes 0 and 45. -/
theorem noon_hour_angle_independent_of_latitude_witness :
    (solarAngle ⟨⟨0, 0, 0, 0, 0, 0⟩, 0, 0, 0⟩).solar_noon =
      (solarAngle ⟨⟨0, 0, 0, 0, 0, 0⟩, 45, 0, 0⟩).solar_noon ∧
    (solarAngle ⟨⟨0, 0, 0, 0, 0, 0⟩, 0, 0, 0⟩).hour_angle =
      (solarAngle ⟨⟨0, 0, 0, 0, 0, 0⟩, 45, 0, 0⟩).hour_angle :=
  noon_hour_angle_independent_of_latitude ⟨0, 0, 0, 0, 0, 0⟩ 0 45 0 0
    (by norm_num)

/- C2: range invariants. The ordering `sunrise < noon < sunset` needs the
sunrise hour angle to be defined (`arccos` argument in range) and positive;
the witness input below is the 1968-05-24 epoch at the equator. -/

/-- C2: whenever the outputs are finite, the returned record satisfies
`solar_zenith_angle ∈ [0, 180]`, `solar_elevation_angle ∈ [-90, 90]`,
`solar_azimuth_angle ∈ [0, 360)`, `hour_angle ∈ [-180, 180]`; and whenever
the sunrise hour angle is defined (its `arccos` argument at least −1) and
strictly positive, `sunrise < solar_noon < sunset`. -/
theorem solar_angle_range_invariants (i : SInput) :
    0 ≤ (solarAngle i).solar_zenith_angle ∧
    (solarAngle i).solar_zenith_angle ≤ 180 ∧
    -90 ≤ (solarAngle i).solar_elevation_angle ∧
    (solarAngle i).solar_elevation_angle ≤ 90 ∧
    0 ≤ (solarAngle i).solar_azimuth_angle ∧
    (solarAngle i).solar_azimuth_angle < 360 ∧
    -180 ≤ (solarAngle i).hour_angle ∧
    (solarAngle i).hour_angle ≤ 180 ∧
    (-1 ≤ HASunriseArg i → 0 < HASunrise i →
      (solarAngle i).sunrise < (solarAngle i).solar_noon ∧
      (solarAngle i).solar_noon < (solarAngle i).sunset) := by
  have hz1 : 0 ≤ solarZenithAngle i := degrees_nonneg (arccos_nonneg _)
  have hz2 : solarZenithAngle i ≤ 180 := degrees_le_of_le_pi (arccos_le_pi _)
  have h0 : 0 ≤ trueSolarTimeMin i := rmod_nonneg _ (by norm_num)
  have h1 : trueSolarTimeMin i < 1440 := rmod_lt _ (by norm_num)
  have hha : hourAngle i = trueSolarTimeMin i / 4.0 - 180.0 := by
    unfold hourAngle
    rw [if_neg (by rw [not_lt]; linarith)]
  refine ⟨hz1, hz2, ?_, ?_, ?_, ?_, ?_, ?_, ?_⟩
  · show -90 ≤ solarElevAngle i
    unfold solarElevAngle
    linarith
  · show solarElevAngle i ≤ 90
    unfold solarElevAngle
    linarith
  · show 0 ≤ solarAzimuthAngle i
    unfold solarAzimuthAngle
    split_ifs <;> exact rmod_nonneg _ (by norm_num)
  · show solarAzimuthAngle i < 360
    unfold solarAzimuthAngle
    split_ifs <;> exact rmod_lt _ (by norm_num)
  · show -180 ≤ hourAngle i
    rw [hha]
    linarith
  · show hourAngle i ≤ 180
    rw [hha]
    linarith
  · intro _hdef hpos
    constructor
    · show sunriseLocal i < solarNoonLocal i
      unfold sunriseLocal
      linarith
    · show solarNoonLocal i < sunsetLocal i
      unfold sunsetLocal
      linarith

/-- The concrete witness input for C2: the 1968-05-24 reference epoch at
latitude 0, longitude 0, timezone 0. -/
def epochInput : SInput := ⟨⟨0, 0, 0, 0, 0, 0⟩, 0, 0, 0⟩

theorem julianCentury_epoch : julianCentury epochInput = -11544.5 / 36525 := by
  unfold julianCentury julianDate epochInput
  norm_num

theorem meanObliq_epoch_bounds :
    23.43 < meanObliqEcliptic epochInput ∧
      meanObliqEcliptic epochInput < 23.45 := by
  unfold meanObliqEcliptic
  rw [julianCentury_epoch]
  norm_num

theorem obliqCorr_epoch_bounds :
    23.42 < obliqCorr epochInput ∧ obliqCorr epochInput < 23.46 := by
  obtain ⟨hm1, hm2⟩ := meanObliq_epoch_bounds
  unfold obliqCorr
  have hc1 := neg_one_le_cos
    (radians (125.04 - 1934.136 * julianCentury epochInput))
  have hc2 := cos_le_one
    (radians (125.04 - 1934.136 * julianCentury epochInput))
  constructor <;> nlinarith

theorem radians_obliqCorr_epoch_bounds :
    0 < radians (obliqCorr epochInput) ∧
      radians (obliqCorr epochInput) < 0.42 := by
  obtain ⟨ho1, ho2⟩ := obliqCorr_epoch_bounds
  unfold radians
  constructor
  · nlinarith [pi_gt_d2]
  · nlinarith [pi_lt_d2, pi_gt_d2]

theorem sin_obliq_epoch_bounds :
    0 < sin (radians (obliqCorr epochInput)) ∧
      sin (radians (obliqCorr epochInput)) < 0.42 := by
  obtain ⟨hr1, hr2⟩ := radians_obliqCorr_epoch_bounds
  constructor
  · exact sin_pos_of_pos_of_lt_pi hr1 (by nlinarith [pi_gt_d2])
  · exact lt_trans (Real.sin_lt hr1) hr2

theorem declin_sq_epoch_lt :
    (sin (radians (obliqCorr epochInput))
      * sin (radians (sunAppLon epochInput))) ^ 2 ≤ 0.18 := by
  obtain ⟨hs1, hs2⟩ := sin_obliq_epoch_bounds
  have hb : sin (radians (sunAppLon epochInput)) ^ 2 ≤ 1 := sin_sq_le_one _
  have ha2 : sin (radians (obliqCorr epochInput)) ^ 2 ≤ 0.1764 := by nlinarith
  have hbnn : (0:ℝ) ≤ sin (radians (sunAppLon epochInput)) ^ 2 := sq_nonneg _
  calc (sin (radians (obliqCorr epochInput))
        * sin (radians (sunAppLon epochInput))) ^ 2
      = sin (radians (obliqCorr epochInput)) ^ 2
        * sin (radians (sunAppLon epochInput)) ^ 2 := by ring
    _ ≤ 0.1764 * 1 := mul_le_mul ha2 hb hbnn (by norm_num)
    _ ≤ 0.18 := by norm_num

theorem radians_sunDeclin_epoch :
    radians (sunDeclin epochInput) =
      arcsin (sin (radians (obliqCorr epochInput))
        * sin (radians (sunAppLon epochInput))) := by
  unfold sunDeclin
  rw [radians_degrees]

theorem cos_radians_sunDeclin_epoch_ge :
    0.9 ≤ cos (radians (sunDeclin epochInput)) := by
  rw [radians_sunDeclin_epoch, Real.cos_arcsin]
  have ht := declin_sq_epoch_lt
  have h81 : Real.sqrt 0.81 = 0.9 := by
    rw [show (0.81:ℝ) = 0.9 ^ 2 by norm_num]
    exact Real.sqrt_sq (by norm_num)
  calc (0.9:ℝ) = Real.sqrt 0.81 := h81.symm
    _ ≤ _ := Real.sqrt_le_sqrt (by nlinarith)

theorem cos_radians_90833_bounds :
    -0.015 ≤ cos (radians 90.833) ∧ cos (radians 90.833) < 0 := by
  have hsplit : radians 90.833 = 0.833 * π / 180 + π / 2 := by
    unfold radians
    ring
  have hy1 : (0:ℝ) < 0.833 * π / 180 := by positivity
  have hy2 : 0.833 * π / 180 < 0.015 := by nlinarith [pi_lt_d2]
  rw [hsplit, Real.cos_add_pi_div_two]
  constructor
  · have := Real.sin_lt hy1
    linarith
  · have : 0 < sin (0.833 * π / 180) :=
      sin_pos_of_pos_of_lt_pi hy1 (by nlinarith [pi_gt_d2])
    linarith

theorem HASunriseArg_epoch_eq :
    HASunriseArg epochInput =
      cos (radians 90.833) / cos (radians (sunDeclin epochInput)) := by
  unfold HASunriseArg
  have hlat : epochInput.lat = 0 := rfl
  have h0 : radians 0 = 0 := by unfold radians; ring
  rw [hlat, h0, Real.cos_zero, Real.tan_zero]
  ring

theorem HASunriseArg_epoch_ge : -1 ≤ HASunriseArg epochInput := by
  rw [HASunriseArg_epoch_eq]
  obtain ⟨hc1, _hc2⟩ := cos_radians_90833_bounds
  have hd := cos_radians_sunDeclin_epoch_ge
  have hdpos : 0 < cos (radians (sunDeclin epochInput)) := by linarith
  rw [le_div_iff₀ hdpos]
  nlinarith

theorem HASunrise_epoch_pos : 0 < HASunrise epochInput := by
  unfold HASunrise
  apply degrees_pos
  apply arccos_pos.mpr
  rw [HASunriseArg_epoch_eq]
  obtain ⟨_hc1, hc2⟩ := cos_radians_90833_bounds
  have hd := cos_radians_sunDeclin_epoch_ge
  have : cos (radians 90.833) / cos (radians (sunDeclin epochInput)) < 0 :=
    div_neg_of_neg_of_pos hc2 (by linarith)
  linarith

/-- C2 witness: at the epoch input the sunrise hour angle is defined and
positive, and the ordering `sunrise < noon < sunset` holds. -/
theorem solar_angle_range_invariants_witness :
    (solarAngle epochInput).sunrise < (solarAngle epochInput).solar_noon ∧
    (solarAngle epochInput).solar_noon < (solarAngle epochInput).sunset :=
  (solar_angle_range_invariants epochInput).2.2.2.2.2.2.2.2
    HASunriseArg_epoch_ge HASunrise_epoch_pos

/- The floating-point-degeneracy model: `Option ℝ` with `none` = NaN.
Only the operations that can produce a non-finite value in the source are
lifted; every other quantity is exact. -/

/-- Model of `np.arccos` with its domain behavior: an argument outside
`[-1, 1]` yields NaN (`none`). -/
noncomputable def acosDomE (x : ℝ) : Option ℝ :=
  if -1 ≤ x ∧ x ≤ 1 then some (arccos x) else none

/-- Division whose zero-denominator case yields a non-finite value. In the
source a zero denominator gives `±inf` or NaN; every use of `fdivE` here
feeds an `arccos`, which maps all three to NaN, so `none` is the faithful
joint model of that case. -/
noncomputable def fdivE (a b : ℝ) : Option ℝ :=
  if b = 0 then none else some (a / b)

/-- Model of `HA_sunrise` with NaN propagation: the quotient feeds the
`arccos`, whose out-of-range arguments (polar day/night) give NaN. -/
noncomputable def HASunriseE (i : SInput) : Option ℝ :=
  (fdivE (cos (radians 90.833))
      (cos (radians i.lat) * cos (radians (sunDeclin i)))).bind
    fun q =>
      (acosDomE (q - tan (radians i.lat) * tan (radians (sunDeclin i)))).map
        degrees

/-- Model of `sunrise_local` with NaN propagation from `HA_sunrise`. -/
noncomputable def sunriseLocalE (i : SInput) : Option ℝ :=
  (HASunriseE i).map fun h => solarNoonLocal i - h * 4.0 / 1440.0

/-- Model of `sunset_local` with NaN propagation from `HA_sunrise`. -/
noncomputable def sunsetLocalE (i : SInput) : Option ℝ :=
  (HASunriseE i).map fun h => solarNoonLocal i + h * 4.0 / 1440.0

/-- Model of `solar_zenith_angle` with NaN propagation. -/
noncomputable def solarZenithAngleE (i : SInput) : Option ℝ :=
  (acosDomE (zenithArg i)).map degrees

/-- Model of `solar_elev_angle` with NaN propagation. -/
noncomputable def solarElevAngleE (i : SInput) : Option ℝ :=
  (solarZenithAngleE i).map fun z => 90.0 - z

/-- The `arccos` of the azimuth computation with NaN propagation (division
by zero at zenith exactly 0 or 180 degrees, or out-of-range ratio). -/
noncomputable def azimuthAcosE (i : SInput) : Option ℝ :=
  (solarZenithAngleE i).bind fun z =>
    (fdivE (sin (radians i.lat) * cos (radians z) - sin (radians (sunDeclin i)))
        (cos (radians i.lat) * sin (radians z))).bind acosDomE

/-- Model of `solar_azimuth_angle` with NaN propagation. -/
noncomputable def solarAzimuthAngleE (i : SInput) : Option ℝ :=
  (azimuthAcosE i).map fun a =>
    if hourAngle i > 0.0 then rmod (degrees a + 180) 360
    else rmod (540.0 - degrees a) 360

/-- Guard 1 of the refraction chain, `solar_elev_angle > 85.0`, under IEEE
comparison semantics: a comparison with NaN (`none`) is false. -/
def guardHigh (e : Option ℝ) : Prop := ∃ x, e = some x ∧ 85.0 < x

/-- Guard 2 of the refraction chain, `5.0 < solar_elev_angle <= 85.0`. -/
def guardMid (e : Option ℝ) : Prop := ∃ x, e = some x ∧ 5.0 < x ∧ x ≤ 85.0

/-- Guard 3 of the refraction chain, `-0.575 < solar_elev_angle <= 5.0`. -/
def guardLow (e : Option ℝ) : Prop := ∃ x, e = some x ∧ -0.575 < x ∧ x ≤ 5.0

/-- Guard 4 of the refraction chain, `solar_elev_angle <= -0.575`. -/
def guardNeg (e : Option ℝ) : Prop := ∃ x, e = some x ∧ x ≤ -0.575

/-- The refraction `if/elif` chain of the source over the NaN model: when no
guard fires, `approx_atmos_refrac` is never assigned, and the subsequent read
raises `UnboundLocalError` — modelled by the outer `none`. -/
noncomputable def refracE (e : Option ℝ) : Option ℝ :=
  match e with
  | none => none
  | some x =>
    if 85.0 < x then some 0.0
    else if 5.0 < x ∧ x ≤ 85.0 then
      some ((58.1 / tan (radians x) - 0.07 / tan (radians x) ^ 3
        + 0.000086 / tan (radians x) ^ 5) / 3600.0)
    else if -0.575 < x ∧ x ≤ 5.0 then
      some ((1735.0 - 518.2 * x + 103.4 * x ^ 2 - 12.79 * x ^ 3
        + 0.711 * x ^ 4) / 3600.0)
    else if x ≤ -0.575 then
      some (-20.774 / 3600.0 / tan (radians x))
    else none

/-- The result record over the NaN model (each field may be NaN). -/
structure SolarAngleResultE where
  solar_noon : Option ℝ
  sunrise : Option ℝ
  sunset : Option ℝ
  hour_angle : Option ℝ
  solar_zenith_angle : Option ℝ
  solar_elevation_angle : Option ℝ
  solar_azimuth_angle : Option ℝ
  atmospheric_refraction : Option ℝ
  solar_zenith_angle_corrected : Option ℝ
  solar_elevation_angle_corrected : Option ℝ

/-- Model of `solar_angle` over the NaN model: returns `none` (an exception,
no record) exactly when the refraction chain left its variable unbound;
otherwise assembles the complete record, NaN fields included. -/
noncomputable def solarAngleE (i : SInput) : Option SolarAngleResultE :=
  (refracE (solarElevAngleE i)).map fun r =>
    { solar_noon := some (solarNoonLocal i)
      sunrise := sunriseLocalE i
      sunset := sunsetLocalE i
      hour_angle := some (hourAngle i)
      solar_zenith_angle := solarZenithAngleE i
      solar_elevation_angle := solarElevAngleE i
      solar_azimuth_angle := solarAzimuthAngleE i
      atmospheric_refraction := some r
      solar_zenith_angle_corrected := (solarZenithAngleE i).map fun z => z - r
      solar_elevation_angle_corrected :=
        (solarElevAngleE i).map fun e2 => e2 + r }

theorem refracE_some (x : ℝ) :
    refracE (some x) = some (approxAtmosRefrac x) := by
  show (if 85.0 < x then some (0.0:ℝ)
    else if 5.0 < x ∧ x ≤ 85.0 then
      some ((58.1 / tan (radians x) - 0.07 / tan (radians x) ^ 3
        + 0.000086 / tan (radians x) ^ 5) / 3600.0)
    else if -0.575 < x ∧ x ≤ 5.0 then
      some ((1735.0 - 518.2 * x + 103.4 * x ^ 2 - 12.79 * x ^ 3
        + 0.711 * x ^ 4) / 3600.0)
    else if x ≤ -0.575 then
      some (-20.774 / 3600.0 / tan (radians x))
    else none) = some (approxAtmosRefrac x)
  unfold approxAtmosRefrac
  split_ifs with h1 h2 h3 h4
  · rfl
  · rfl
  · rfl
  · rfl
  · exfalso
    rw [not_lt] at h1
    rw [not_le] at h4
    have h5 : ¬x ≤ 5.0 := fun hx5 => h3 ⟨h4, hx5⟩
    rw [not_le] at h5
    exact h2 ⟨h5, h1⟩

theorem solarZenithAngleE_some (i : SInput) :
    solarZenithAngleE i = some (solarZenithAngle i) := by
  unfold solarZenithAngleE acosDomE
  rw [if_pos (zenithArg_mem i)]
  rfl

theorem solarElevAngleE_some (i : SInput) :
    solarElevAngleE i = some (solarElevAngle i) := by
  unfold solarElevAngleE
  rw [solarZenithAngleE_some]
  rfl

/-- In the NaN model, the elevation angle is always finite (its `arccos`
argument is provably in `[-1, 1]`), so the refraction chain always assigns
and `solarAngleE` always returns a complete record. -/
theorem solarAngleE_eq (i : SInput) :
    solarAngleE i = some
      { solar_noon := some (solarNoonLocal i)
        sunrise := sunriseLocalE i
        sunset := sunsetLocalE i
        hour_angle := some (hourAngle i)
        solar_zenith_angle := some (solarZenithAngle i)
        solar_elevation_angle := some (solarElevAngle i)
        solar_azimuth_angle := solarAzimuthAngleE i
        atmospheric_refraction := some (approxAtmosRefrac (solarElevAngle i))
        solar_zenith_angle_corrected :=
          some (solarZenithAngle i - approxAtmosRefrac (solarElevAngle i))
        solar_elevation_angle_corrected :=
          some (solarElevAngle i + approxAtmosRefrac (solarElevAngle i)) } := by
  unfold solarAngleE
  rw [solarElevAngleE_some, refracE_some, Option.map_some',
    solarZenithAngleE_some]
  rfl

/-- C5: on every input where the `arccos` chain of the sunrise-hour-angle or
azimuth computation degenerates (argument outside `[-1, 1]`, or a zero
denominator feeding it), `solar_angle` still returns a complete record: the
NaN lands in the affected fields (`sunrise`/`sunset`, resp. the azimuth) and
all other fields are finite; no exception is raised. -/
theorem nan_propagates_to_record (i : SInput)
    (_h : HASunriseE i = none ∨ azimuthAcosE i = none) :
    ∃ r, solarAngleE i = some r ∧
      r.solar_noon = some (solarNoonLocal i) ∧
      r.hour_angle = some (hourAngle i) ∧
      r.solar_zenith_angle = some (solarZenithAngle i) ∧
      r.solar_elevation_angle = some (solarElevAngle i) ∧
      r.atmospheric_refraction =
        some (approxAtmosRefrac (solarElevAngle i)) ∧
      r.solar_zenith_angle_corrected =
        some (solarZenithAngle i - approxAtmosRefrac (solarElevAngle i)) ∧
      r.solar_elevation_angle_corrected =
        some (solarElevAngle i + approxAtmosRefrac (solarElevAngle i)) ∧
      (HASunriseE i = none → r.sunrise = none ∧ r.sunset = none) ∧
      (azimuthAcosE i = none → r.solar_azimuth_angle = none) := by
  refine ⟨_, solarAngleE_eq i, rfl, rfl, rfl, rfl, rfl, rfl, rfl, ?_, ?_⟩
  · intro hnone
    constructor
    · show sunriseLocalE i = none
      unfold sunriseLocalE
      rw [hnone]
      rfl
    · show sunsetLocalE i = none
      unfold sunsetLocalE
      rw [hnone]
      rfl
  · intro hnone
    show solarAzimuthAngleE i = none
    unfold solarAzimuthAngleE
    rw [hnone]
    rfl

/-- The concrete witness input for C5: latitude 90 (polar), where the
sunrise-hour-angle denominator `cos(radians(lat)) * cos(radians(declin))`
degenerates and the `arccos` chain yields NaN. -/
def polarInput : SInput := ⟨⟨0, 0, 0, 0, 0, 0⟩, 90, 0, 0⟩

theorem HASunriseE_polar_none : HASunriseE polarInput = none := by
  unfold HASunriseE
  have hlat : polarInput.lat = (90:ℝ) := rfl
  have h90 : radians 90 = π / 2 := by
    unfold radians
    ring
  rw [hlat, h90, Real.cos_pi_div_two]
  simp [fdivE]

/-- C5 witness: at the polar input the sunrise-hour-angle chain is NaN, yet
a complete record is returned with NaN exactly in `sunrise` and `sunset`. -/
theorem nan_propagates_to_record_witness :
    ∃ r, solarAngleE polarInput = some r ∧
      r.solar_noon = some (solarNoonLocal polarInput) ∧
      r.hour_angle = some (hourAngle polarInput) ∧
      r.solar_zenith_angle = some (solarZenithAngle polarInput) ∧
      r.solar_elevation_angle = some (solarElevAngle polarInput) ∧
      r.atmospheric_refraction =
        some (approxAtmosRefrac (solarElevAngle polarInput)) ∧
      r.solar_zenith_angle_corrected =
        some (solarZenithAngle polarInput
          - approxAtmosRefrac (solarElevAngle polarInput)) ∧
      r.solar_elevation_angle_corrected =
        some (solarElevAngle polarInput
          + approxAtmosRefrac (solarElevAngle polarInput)) ∧
      (HASunriseE polarInput = none → r.sunrise = none ∧ r.sunset = none) ∧
      (azimuthAcosE polarInput = none → r.solar_azimuth_angle = none) :=
  nan_propagates_to_record polarInput (Or.inl HASunriseE_polar_none)

/-- C8: with a NaN elevation angle, none of the four refraction branch
guards is satisfied under IEEE comparison semantics, the refraction variable
is never assigned (`refracE none = none`), and `solar_angle` fails with an
unbound-local error — returns no record at all — exactly when that happens;
with a finite elevation the chain always assigns the piecewise value. -/
theorem nan_elevation_leaves_refraction_unbound :
    (¬guardHigh none ∧ ¬guardMid none ∧ ¬guardLow none ∧ ¬guardNeg none) ∧
    refracE none = none ∧
    (∀ x : ℝ, refracE (some x) = some (approxAtmosRefrac x)) ∧
    (∀ i : SInput, solarAngleE i = none ↔ refracE (solarElevAngleE i) = none)
    := by
  refine ⟨⟨?_, ?_, ?_, ?_⟩, rfl, refracE_some, fun i => ?_⟩
  · rintro ⟨x, hx, _⟩
    exact Option.noConfusion hx
  · rintro ⟨x, hx, _⟩
    exact Option.noConfusion hx
  · rintro ⟨x, hx, _⟩
    exact Option.noConfusion hx
  · rintro ⟨x, hx, _⟩
    exact Option.noConfusion hx
  · unfold solarAngleE
    exact Option.map_eq_none'

/-- The dynamic type of the `dt` argument: a genuine `datetime.datetime`, a
date-only `datetime.date`, or any other non-datetime value. -/
inductive TimeArg where
  | dtime (d : DTime)
  | dateOnly
  | nonTime

/-- Model of `solar_angle` including its `isinstance(dt, datetime.datetime)`
precondition check: any non-`datetime.datetime` argument raises `TypeError`
before any numeric computation. -/
noncomputable def solarAngleChecked (t : TimeArg) (lat lon timezone : ℝ) :
    Except Unit SolarAngleResult :=
  match t with
  | .dtime d => .ok (solarAngle ⟨d, lat, lon, timezone⟩)
  | _ => .error ()

/-- C7: `solar_angle` raises a type error if and only if the timestamp
argument is not a full date+time value (date-only rejected); the check runs
before any numeric computation, so the outcome on rejected inputs is
independent of the numeric arguments and carries no partial result; on
accepted inputs the full computation runs. -/
theorem type_check_fails_fast :
    (∀ (t : TimeArg) (lat lon tz : ℝ),
      solarAngleChecked t lat lon tz = .error () ↔
        ∀ d, t ≠ TimeArg.dtime d) ∧
    (∀ (t : TimeArg) (lat lon tz lat2 lon2 tz2 : ℝ),
      (∀ d, t ≠ TimeArg.dtime d) →
      solarAngleChecked t lat lon tz = solarAngleChecked t lat2 lon2 tz2) ∧
    (∀ (d : DTime) (lat lon tz : ℝ),
      solarAngleChecked (TimeArg.dtime d) lat lon tz =
        .ok (solarAngle ⟨d, lat, lon, tz⟩)) := by
  refine ⟨fun t lat lon tz => ?_, fun t lat lon tz lat2 lon2 tz2 h => ?_,
    fun d lat lon tz => rfl⟩
  · cases t with
    | dtime d =>
      constructor
      · intro he
        exact Except.noConfusion he
      · intro hall
        exact absurd rfl (hall d)
    | dateOnly =>
      constructor
      · intro _ d hd
        exact TimeArg.noConfusion hd
      · intro _
        rfl
    | nonTime =>
      constructor
      · intro _ d hd
        exact TimeArg.noConfusion hd
      · intro _
        rfl
  · cases t with
    | dtime d => exact absurd rfl (h d)
    | dateOnly => rfl
    | nonTime => rfl

/-- C7 witness: a date-only argument is rejected identically for any numeric
arguments, with no partial result. -/
theorem type_check_fails_fast_witness :
    solarAngleChecked TimeArg.dateOnly 0 0 0 =
      solarAngleChecked TimeArg.dateOnly 34 (-118) (-8) :=
  type_check_fails_fast.2.1 TimeArg.dateOnly 0 0 0 34 (-118) (-8)
    (fun _d hd => TimeArg.noConfusion hd)
